import Mathlib

/-!
Verification development for the toorpia MCP server's workflow-gating and
authorization core (session store, READY gate, token-verification layer,
audit recorder).  The TypeScript sources under `src/` are shallowly embedded
as executable Lean definitions; theorems below settle the frozen claims.
-/

set_option maxRecDepth 10000

deriving instance DecidableEq for Except

namespace Toorpia

/-- Split a character list at every occurrence of the delimiter, keeping empty
segments — the semantics of JavaScript `String.prototype.split` with a
single-character separator. -/
def splitChar (c : Char) : List Char → List (List Char)
  | [] => [[]]
  | x :: t =>
    if x = c then [] :: splitChar c t
    else
      match splitChar c t with
      | s :: rest => (x :: s) :: rest
      | [] => [[x]]

/-! ## JSON values and serialization

Models the JavaScript values passed as tool arguments and the
`JSON.stringify` serialization that `hashInput` (src/utils/audit.ts) applies
before hashing.  Numbers are modelled as integers (no claim involves
fractional payloads); string escaping covers the quote and backslash cases.
-/

inductive Json where
  | null : Json
  | bool (b : Bool) : Json
  | num (n : Int) : Json
  | str (s : String) : Json
  | arr (elems : List Json) : Json
  | obj (fields : List (String × Json)) : Json

/-- Escape a character the way `JSON.stringify` escapes string contents. -/
def jsonEscapeChar (c : Char) : String :=
  if c = '"' then "\\\""
  else if c = '\\' then "\\\\"
  else if c = '\n' then "\\n"
  else if c = '\r' then "\\r"
  else if c = '\t' then "\\t"
  else String.singleton c

def jsonEscape (s : String) : String :=
  String.join (s.data.map jsonEscapeChar)

mutual

/-- `JSON.stringify` on the modelled value fragment. -/
def stringify : Json → String
  | .null => "null"
  | .bool true => "true"
  | .bool false => "false"
  | .num n => toString n
  | .str s => "\"" ++ jsonEscape s ++ "\""
  | .arr elems => "[" ++ String.intercalate "," (stringifyList elems) ++ "]"
  | .obj fields => "\x7b" ++ String.intercalate "," (stringifyObj fields) ++ "\x7d"

def stringifyList : List Json → List String
  | [] => []
  | j :: t => stringify j :: stringifyList t

def stringifyObj : List (String × Json) → List String
  | [] => []
  | (k, v) :: t => ("\"" ++ jsonEscape k ++ "\":" ++ stringify v) :: stringifyObj t

end

/-! ## SHA-256

Executable SHA-256 over byte lists, words as `Nat` reduced mod `2^32`.
Used by the audit recorder's `hashInput` (src/utils/audit.ts line 20-22):
`createHash('sha256').update(JSON.stringify(input)).digest('hex').slice(0, 16)`.
-/

def u32mask : Nat := 4294967295

def u32 (x : Nat) : Nat := x % 4294967296

/-- Rotate a 32-bit word right by `n` (0 < n < 32). -/
def rotr (n x : Nat) : Nat := x / 2 ^ n + x % 2 ^ n * 2 ^ (32 - n)

/-- Shift a 32-bit word right by `n`. -/
def shr (n x : Nat) : Nat := x / 2 ^ n

def bnot32 (x : Nat) : Nat := Nat.xor x u32mask

/-- The 64 SHA-256 round constants, in decimal. -/
def sha256K : List Nat :=
  [1116352408, 1899447441, 3049323471, 3921009573, 961987163,
   1508970993, 2453635748, 2870763221, 3624381080, 310598401,
   607225278, 1426881987, 1925078388, 2162078206, 2614888103,
   3248222580, 3835390401, 4022224774, 264347078, 604807628,
   770255983, 1249150122, 1555081692, 1996064986, 2554220882,
   2821834349, 2952996808, 3210313671, 3336571891, 3584528711,
   113926993, 338241895, 666307205, 773529912, 1294757372,
   1396182291, 1695183700, 1986661051, 2177026350, 2456956037,
   2730485921, 2820302411, 3259730800, 3345764771, 3516065817,
   3600352804, 4094571909, 275423344, 430227734, 506948616,
   659060556, 883997877, 958139571, 1322822218, 1537002063,
   1747873779, 1955562222, 2024104815, 2227730452, 2361852424,
   2428436474, 2756734187, 3204031479, 3329325298]

/-- The eight SHA-256 initial hash words, in decimal. -/
def sha256H0 : List Nat :=
  [1779033703, 3144134277, 1013904242, 2773480762,
   1359893119, 2600822924, 528734635, 1541459225]

/-- Pad a byte message per SHA-256: append 0x80, zeros, then the 64-bit
bit-length big-endian, so the total length is a multiple of 64 bytes. -/
def sha256Pad (msg : List Nat) : List Nat :=
  let l := msg.length
  let zeros := (64 + 56 - (l + 1) % 64) % 64
  let bitLen := l * 8
  msg ++ [0x80] ++ List.replicate zeros 0 ++
    (List.range 8).map (fun i => bitLen / 2 ^ (8 * (7 - i)) % 256)

/-- Split a padded message (length a multiple of 64) into its 64-byte blocks. -/
def chunks64 (l : List Nat) : List (List Nat) :=
  (List.range (l.length / 64)).map (fun i => (l.drop (64 * i)).take 64)

/-- Decode sixteen 32-bit big-endian words from a 64-byte block. -/
def blockWords (block : List Nat) : List Nat :=
  (List.range 16).map (fun i =>
    block.getD (4 * i) 0 * 16777216 + block.getD (4 * i + 1) 0 * 65536 +
    block.getD (4 * i + 2) 0 * 256 + block.getD (4 * i + 3) 0)

def smallSigma0 (x : Nat) : Nat := Nat.xor (Nat.xor (rotr 7 x) (rotr 18 x)) (shr 3 x)
def smallSigma1 (x : Nat) : Nat := Nat.xor (Nat.xor (rotr 17 x) (rotr 19 x)) (shr 10 x)
def bigSigma0 (x : Nat) : Nat := Nat.xor (Nat.xor (rotr 2 x) (rotr 13 x)) (rotr 22 x)
def bigSigma1 (x : Nat) : Nat := Nat.xor (Nat.xor (rotr 6 x) (rotr 11 x)) (rotr 25 x)

/-- Extend sixteen words to the 64-word message schedule. -/
def sha256Schedule (w16 : List Nat) : List Nat :=
  (List.range 48).foldl
    (fun w t =>
      w ++ [u32 (smallSigma1 (w.getD (t + 14) 0) + w.getD (t + 9) 0 +
                 smallSigma0 (w.getD (t + 1) 0) + w.getD t 0)])
    w16

def sha256Round (st : List Nat) (kw : Nat × Nat) : List Nat :=
  match st with
  | [a, b, c, d, e, f, g, h] =>
    let ch := Nat.xor (Nat.land e f) (Nat.land (bnot32 e) g)
    let maj := Nat.xor (Nat.xor (Nat.land a b) (Nat.land a c)) (Nat.land b c)
    let t1 := u32 (h + bigSigma1 e + ch + kw.1 + kw.2)
    let t2 := u32 (bigSigma0 a + maj)
    [u32 (t1 + t2), a, b, c, u32 (d + t1), e, f, g]
  | other => other

def sha256Block (hs : List Nat) (block : List Nat) : List Nat :=
  let w := sha256Schedule (blockWords block)
  let final := (sha256K.zip w).foldl sha256Round hs
  (hs.zip final).map (fun p => u32 (p.1 + p.2))

/-- SHA-256 digest: bytes in, 32 digest bytes out. -/
def sha256 (msg : List Nat) : List Nat :=
  let hs := (chunks64 (sha256Pad msg)).foldl sha256Block sha256H0
  hs.foldr (fun h acc =>
    [h / 16777216 % 256, h / 65536 % 256, h / 256 % 256, h % 256] ++ acc) []

def hexDigit (n : Nat) : Char :=
  if n < 10 then Char.ofNat (48 + n) else Char.ofNat (87 + n)

def byteToHex (b : Nat) : String :=
  String.singleton (hexDigit (b / 16)) ++ String.singleton (hexDigit (b % 16))

def bytesToHex : List Nat → String
  | [] => ""
  | b :: t => byteToHex b ++ bytesToHex t

/-- UTF-8 encoding of one character (what node's `update(string)` hashes). -/
def utf8Char (c : Char) : List Nat :=
  let n := c.toNat
  if n < 128 then [n]
  else if n < 2048 then [192 + n / 64, 128 + n % 64]
  else if n < 65536 then [224 + n / 4096, 128 + n / 64 % 64, 128 + n % 64]
  else [240 + n / 262144, 128 + n / 4096 % 64, 128 + n / 64 % 64, 128 + n % 64]

def utf8Bytes (s : String) : List Nat :=
  s.data.flatMap utf8Char

/-- Lowercase hex SHA-256 of a string, as `createHash('sha256')...digest('hex')`. -/
def sha256hex (s : String) : String :=
  bytesToHex (sha256 (utf8Bytes s))

/-- Character-level prefix, mirroring JavaScript `.slice(0, n)` (the digest is
ASCII hex, so code units and characters coincide). -/
def strTake (s : String) (n : Nat) : String :=
  ⟨s.data.take n⟩

/-- Substring test: does `s` contain `pat` as a contiguous substring? -/
def containsSubstr (s pat : String) : Bool :=
  (List.range (s.data.length + 1)).any
    (fun i => (s.data.drop i).take pat.data.length == pat.data)

/-- `hashInput` (src/utils/audit.ts line 20-22): first 16 hex characters of the
SHA-256 digest of the JSON serialization of the input. -/
def hashInput (input : Json) : String :=
  strTake (sha256hex (stringify input)) 16

/-! ## Data model (src/types, src/middleware/guard.ts)

`types.ts` itself is not under `src/`; its shapes are reconstructed from
their uses in `guard.ts` / `server.ts` and from the spec's §3 data model.
-/

/-- Session states (spec §3; `State` in types.ts). -/
inductive State where
  | REGISTERED | PROFILED | SUGGESTED | READY | ANALYZED
  deriving DecidableEq, Repr

structure Owner where
  user : String
  tenant : String
  deriving DecidableEq, Repr

structure ColumnSchema where
  time_col : String
  value_cols : List String
  deriving DecidableEq, Repr

/-- The `processed` record attached at confirmation (server.ts line 378-386). -/
structure ProcessedRecord where
  uri : String
  checksum : String
  presetId : String
  profileId : String
  recipeVersion : String
  rowCount : Nat
  schema : ColumnSchema
  deriving DecidableEq, Repr

structure Session where
  datasetId : String
  state : State
  suggestedPresetIds : List String
  processed : Option ProcessedRecord := none
  owner : Owner
  deriving DecidableEq, Repr

/-- A session id `sess_${Date.now()}_${random}` (guard.ts line 18).  The random
part uses base-36 digits (no underscore), so the id determines `timestamp`
(what `cleanupSessions` re-parses from `parts[1]`) and the random component. -/
structure SessionId where
  timestamp : Nat
  random : Nat
  deriving DecidableEq, Repr

structure AuthContext where
  user : String
  tenant : String
  scopes : List String
  token : String
  deriving DecidableEq, Repr

/-- Manifest supplied to `toorpia_confirm_preprocessed`
(src/schemas/confirmPreprocessed.ts). -/
structure Manifest where
  preset_id : String
  profile_id : String
  recipe_version : String
  checksum : String
  row_count : Nat
  schema : ColumnSchema
  deriving DecidableEq, Repr

/-- Arguments of the remediation calls placed in `ErrorResponse.next`. -/
inductive NextArgs where
  | upload (csv_data : String)
  | suggest (dataset_id : String)
  | confirm (dataset_id : String) (processed_uri : String) (manifest : Manifest)
  deriving DecidableEq, Repr

structure NextAction where
  tool : String
  args : NextArgs
  deriving DecidableEq, Repr

/-- Structured failure returned to callers (spec §3/§6; `errorNext` lives in
the missing `types.ts`).  Modelled from the spec: §6 fixes the shape
`\x7b "error", "message", "next", "audit_id" \x7d`, and `errorNext`'s call sites in
guard.ts / server.ts pass exactly these four fields in this order. -/
structure ErrorResponse where
  error : String
  message : String
  next : List NextAction
  audit_id : String
  deriving DecidableEq, Repr

/-- Modelled from the spec: constructor of `ErrorResponse` (types.ts is not in
src/; per §3 and §6 it packages the four fields unchanged). -/
def errorNext (error message : String) (next : List NextAction) (auditId : String) :
    ErrorResponse :=
  { error := error, message := message, next := next, audit_id := auditId }

/-! ## Association-list maps

JavaScript `Map` objects, embedded as association lists with unique keys:
`set` replaces any previous binding, `delete` removes it, `get` finds it. -/

def alookup {K V : Type} [DecidableEq K] : List (K × V) → K → Option V
  | [], _ => none
  | e :: t, k => if e.1 = k then some e.2 else alookup t k

def aerase {K V : Type} [DecidableEq K] : List (K × V) → K → List (K × V)
  | [], _ => []
  | e :: t, k => if e.1 = k then aerase t k else e :: aerase t k

def aset {K V : Type} [DecidableEq K] (l : List (K × V)) (k : K) (v : V) :
    List (K × V) :=
  (k, v) :: aerase l k

/-! ## Session store and guard (src/middleware/guard.ts) -/

/-- The two module-level maps of guard.ts: `sessions` and `sessionsByDataset`. -/
structure GuardStore where
  sessions : List (SessionId × Session)
  sessionsByDataset : List (String × SessionId)
  deriving DecidableEq, Repr

def GuardStore.empty : GuardStore := ⟨[], []⟩

/-- `createSession` (guard.ts line 13-32).  `now`/`rand` stand for the
`Date.now()` / `Math.random()` components of the generated id. -/
def createSession (now rand : Nat) (datasetId : String)
    (suggestedPresetIds : List String) (owner : Owner) (st : GuardStore) :
    SessionId × GuardStore :=
  let sessionId : SessionId := ⟨now, rand⟩
  let session : Session :=
    { datasetId := datasetId, state := .SUGGESTED,
      suggestedPresetIds := suggestedPresetIds, processed := none, owner := owner }
  (sessionId,
   { sessions := aset st.sessions sessionId session,
     sessionsByDataset := aset st.sessionsByDataset datasetId sessionId })

/-- `getSession` (guard.ts line 37-39). -/
def getSession (st : GuardStore) (sessionId : SessionId) : Option Session :=
  alookup st.sessions sessionId

/-- `getSessionByDataset` (guard.ts line 44-47). -/
def getSessionByDataset (st : GuardStore) (datasetId : String) : Option Session :=
  match alookup st.sessionsByDataset datasetId with
  | some sessionId => alookup st.sessions sessionId
  | none => none

/-- `updateSession` (guard.ts line 52-70): sets the state, attaches the
processed record when one is supplied (an object argument is always truthy),
keeps the old one otherwise; returns false when the session does not exist. -/
def updateSession (sessionId : SessionId) (state : State)
    (processed : Option ProcessedRecord) (st : GuardStore) : Bool × GuardStore :=
  match alookup st.sessions sessionId with
  | none => (false, st)
  | some session =>
    let session' := { session with
      state := state,
      processed := match processed with
        | some p => some p
        | none => session.processed }
    (true, { st with sessions := aset st.sessions sessionId session' })

/-- `checkScope` (guard.ts line 163-165). -/
def checkScope (auth : AuthContext) (requiredScope : String) : Bool :=
  auth.scopes.contains requiredScope || auth.scopes.contains "*"

/-- Result record of `checkReadyGate`: `\x7b passed; session?; error? \x7d`. -/
structure GateResult where
  passed : Bool
  session : Option Session
  error : Option ErrorResponse
  deriving DecidableEq, Repr

/-- The template `confirm_preprocessed` remediation built for a `SUGGESTED`
session (guard.ts line 122-140); `suggestedPresetIds[0] || "preset_id"`
falls back on the default when the head is missing or the empty string. -/
def confirmTemplate (session : Session) : NextAction :=
  { tool := "toorpia_confirm_preprocessed",
    args := .confirm session.datasetId "your_processed_file_uri"
      { preset_id :=
          match session.suggestedPresetIds.head? with
          | some p => if p = "" then "preset_id" else p
          | none => "preset_id",
        profile_id := "profile_id",
        recipe_version := "v1.0",
        checksum := "sha256:your_checksum",
        row_count := 1000,
        schema := { time_col := "timestamp", value_cols := ["value1", "value2"] } } }

/-- `checkReadyGate` (guard.ts line 75-158): not-found, then ownership, then
state, in that order. -/
def checkReadyGate (st : GuardStore) (sessionId : SessionId) (auth : AuthContext)
    (auditId : String) : GateResult :=
  match alookup st.sessions sessionId with
  | none =>
    { passed := false, session := none,
      error := some (errorNext "SESSION_NOT_FOUND"
        "指定されたセッションが見つかりません。"
        [{ tool := "toorpia_upload_data", args := .upload "your_csv_data" }]
        auditId) }
  | some session =>
    if session.owner.user ≠ auth.user ∨ session.owner.tenant ≠ auth.tenant then
      { passed := false, session := none,
        error := some (errorNext "ACCESS_DENIED"
          "このセッションにアクセスする権限がありません。" [] auditId) }
    else if session.state ≠ .READY then
      let nextActions : List NextAction :=
        if session.state = .REGISTERED then
          [{ tool := "toorpia_suggest_preprocess", args := .suggest session.datasetId }]
        else if session.state = .SUGGESTED then
          [confirmTemplate session]
        else []
      { passed := false, session := none,
        error := some (errorNext "PREPROCESS_REQUIRED"
          "前処理の提案と処理済み確認を完了してください。" nextActions auditId) }
    else
      { passed := true, session := some session, error := none }

/-- One deletion of the expiry sweep (guard.ts line 204-211): look the expired
id up, then delete the dataset-index entry keyed by the stored session's
`datasetId` together with the session record. -/
def cleanupStep (st : GuardStore) (sessionId : SessionId) : GuardStore :=
  match alookup st.sessions sessionId with
  | some session =>
    { sessions := aerase st.sessions sessionId,
      sessionsByDataset := aerase st.sessionsByDataset session.datasetId }
  | none => st

/-- `cleanupSessions` (guard.ts line 189-212): collect the ids whose embedded
timestamp is older than `maxAgeMs`, then delete each from both maps. -/
def cleanupSessions (now maxAgeMs : Nat) (st : GuardStore) : GuardStore :=
  let expired := (st.sessions.filter
    (fun e => decide (maxAgeMs < now - e.1.timestamp))).map (·.1)
  expired.foldl cleanupStep st

/-! ## Token verification (src/middleware/auth.ts) -/

/-- The JWT payload fields read after signature verification. -/
structure JWTPayload where
  sub : Option String
  tenant : Option String
  scope : Option String
  scopes : Option (List String)
  deriving DecidableEq, Repr

/-- JavaScript `a || b` on an optional string: the default replaces a missing
or empty (falsy) value. -/
def orDefault (o : Option String) (d : String) : String :=
  match o with
  | some s => if s = "" then d else s
  | none => d

/-- `parseScopes` (auth middleware line 264-275): an explicit list claim wins;
else a (truthy) space-separated string claim is split with empty fragments
dropped; else the scope set is empty. -/
def parseScopes (payload : JWTPayload) : List String :=
  match payload.scopes with
  | some l => l
  | none =>
    match payload.scope with
    | some s =>
      if s = "" then []
      else ((splitChar ' ' s.data).map (⟨·⟩ : List Char → String)).filter
        (fun x => decide (0 < x.length))
    | none => []

/-- The claim checks of `verifyJWT` (auth middleware line 280-309) applied to a
signature-verified payload: `sub` and `tenant` must be present (and truthy),
scopes come from `parseScopes`.  Signature, audience, lifetime and skew checks
happen inside `jwt.verify`, the external crypto collaborator. -/
def verifyDecoded (decoded : JWTPayload) (token : String) : Except String AuthContext :=
  match decoded.sub, decoded.tenant with
  | some sub, some tenant =>
    if sub = "" ∨ tenant = "" then
      .error "JWT verification failed: JWT missing required fields: sub or tenant"
    else
      .ok { user := sub, tenant := tenant, scopes := parseScopes decoded, token := token }
  | _, _ => .error "JWT verification failed: JWT missing required fields: sub or tenant"

/-- The environment variables the auth layer reads. -/
structure Env where
  nodeEnv : String
  skipAuthEnv : Option String
  deriving DecidableEq, Repr

/-- The fixed identity returned by the development bypass
(auth middleware line 333-338). -/
def devContext : AuthContext :=
  { user := "dev-user", tenant := "dev-tenant", scopes := ["*"], token := "dev-token" }

/-- `extractBearerToken` (auth middleware line 314-319): require the
`"Bearer "` prefix, return the rest (`slice(7)`). -/
def extractBearerToken : Option String → Option String
  | none => none
  | some h =>
    if ("Bearer ").data.isPrefixOf h.data then some ⟨h.data.drop 7⟩ else none

/-- `authenticateRequest` (auth middleware line 325-352).  `verify` stands for
`verifyJWT` (external key fetch + crypto).  The bypass guard is exactly
`skipAuth || (NODE_ENV === 'development' && SKIP_AUTH === 'true')`. -/
def authenticateRequest (env : Env) (verify : String → Except String AuthContext)
    (authHeader : Option String) (skipAuth : Bool) : Except String AuthContext :=
  if skipAuth || (env.nodeEnv == "development" && env.skipAuthEnv == some "true") then
    .ok devContext
  else
    match extractBearerToken authHeader with
    | none => .error "Missing or invalid Authorization header. Expected: Bearer <token>"
    | some token =>
      match verify token with
      | .ok ctx => .ok ctx
      | .error e => .error ("Authentication failed: " ++ e)

/-! ## Backend collaborator (src/utils/backendClient.ts, external)

The HTTP client is out of the verified core (spec §1, §6); each call the core
makes is modelled as an oracle.  `Except.error` models a thrown exception. -/

structure ValidationResult where
  valid : Bool
  error : Option String
  deriving DecidableEq, Repr

structure DataProfile where
  dataType : String
  missingRate : Rat
  timeInterval : Option String
  deriving DecidableEq, Repr

structure ProfileResult where
  success : Bool
  profile : Option DataProfile
  error : Option String
  deriving DecidableEq, Repr

structure UploadResult where
  success : Bool
  dataId : Option String
  message : Option String
  filename : Option String
  error : Option String
  deriving DecidableEq, Repr

structure AnalysisRunResult where
  success : Bool
  analysisId : Option String
  status : Option String
  error : Option String
  deriving DecidableEq, Repr

/-- A preprocessing suggestion (src/schemas/suggestPreprocess.ts). -/
structure PreprocessCandidate where
  preset_id : String
  label : String
  why : List String
  steps_brief : List String
  docs_uri : String
  deriving DecidableEq, Repr

structure Backend where
  uploadData : String → Option String → Except String UploadResult
  getDataProfile : String → ProfileResult
  validateProcessedData : String → String → ValidationResult
  runAnalysisWithSession : SessionId → String → String → Except String AnalysisRunResult
  getAnalysisStatus : String → Except String AnalysisRunResult
  writeFeedback : Except String Unit

/-! ## Tool layer (src/server.ts) -/

/-- Zod-parsed tool arguments (src/schemas).  Parsing itself is not
re-modelled; a shape mismatch stands for a Zod parse failure (which throws). -/
inductive ToolArgs where
  | upload (csv_data : String) (filename : Option String)
  | suggest (dataset_id : String) (topk : Option Nat)
  | confirm (dataset_id : String) (processed_uri : String) (manifest : Manifest)
  | run (session_id : SessionId) (analysis_type : Option String) (parameters : Option Json)
  | status (analysis_id : String)
  | feedback (feedback_type : String) (title : String) (description : String)

/-- Tool results, restricted to the fields the dispatcher inspects
(`success`, `session_id`, `preset_id`, `audit_id`) plus identifying payload. -/
inductive ToolResult where
  | errorResp (e : ErrorResponse)
  | uploadOk (success : Bool) (dataId : Option String) (audit_id : String) (error : Option String)
  | suggestOk (candidates : List PreprocessCandidate) (audit_id : String) (session_id : SessionId)
  | confirmOk (session_id : SessionId) (audit_id : String)
  | runOk (success : Bool) (analysis_id : Option String) (session_id : SessionId)
      (audit_id : String) (error : Option String)
  | statusOk (success : Bool) (analysis_id : String) (audit_id : String)
  | feedbackOk (success : Bool) (audit_id : String)
  deriving DecidableEq, Repr

/-- `result.session_id || undefined` (server.ts line 157): only the suggest,
confirm and run-analysis results carry a `session_id` property. -/
def resultSessionId : ToolResult → Option SessionId
  | .suggestOk _ _ sid => some sid
  | .confirmOk sid _ => some sid
  | .runOk _ _ sid _ _ => some sid
  | _ => none

/-- `result.preset_id || undefined` (server.ts line 158): no tool result
defines a `preset_id` property, so this is always `undefined`. -/
def resultPresetId : ToolResult → Option String
  | _ => none

/-- `generatePreprocessSuggestions` (server.ts line 531-567).  `missingRate`
is compared against the literal 0.2 (exact in both binary64 and `Rat`). -/
def generatePreprocessSuggestions (profile : DataProfile) : List PreprocessCandidate :=
  let c1 : List PreprocessCandidate :=
    if mkRat 1 5 < profile.missingRate then
      [{ preset_id := "resample_1m_ffill5_iqr3_z_by_gtag",
         label := "1分集計 + 欠損ffill(5) + IQR=3.0 + gtag正規化",
         why := ["欠損率>20%", "1分間隔の時系列推定"],
         steps_brief := ["TZ付与→1分集計→ffill(5)→IQR3.0→Zスコア"],
         docs_uri := "toorpia://help#resample_1m_ffill5_iqr3_z_by_gtag" }]
    else []
  let c2 : List PreprocessCandidate :=
    if profile.dataType = "sensor_data" then
      [{ preset_id := "sensor_clean_outlier_norm",
         label := "センサーデータクリーニング + 外れ値除去 + 正規化",
         why := ["センサーデータ検出", "外れ値が想定される"],
         steps_brief := ["センサー校正→外れ値除去→正規化"],
         docs_uri := "toorpia://help#sensor_clean_outlier_norm" }]
    else []
  let candidates := c1 ++ c2
  if candidates.isEmpty then
    [{ preset_id := "basic_clean_norm",
       label := "基本クリーニング + 正規化",
       why := ["標準的な前処理"],
       steps_brief := ["欠損値処理→正規化"],
       docs_uri := "toorpia://help#basic_clean_norm" }]
  else candidates

/-- `uploadData` (server.ts line 281-307): both outcomes return a result
object (a thrown backend error is caught and reported with success=false). -/
def uploadDataTool (backend : Backend) (csv_data : String) (filename : Option String)
    (auditId : String) (st : GuardStore) : Except String ToolResult × GuardStore :=
  match backend.uploadData csv_data filename with
  | .ok r => (.ok (.uploadOk r.success r.dataId auditId r.error), st)
  | .error e => (.ok (.uploadOk false none auditId (some e)), st)

/-- `suggestPreprocess` (server.ts line 309-339): profile the dataset, derive
candidates, create the tracking session in `SUGGESTED` state. -/
def suggestPreprocess (backend : Backend) (now rand : Nat) (dataset_id : String)
    (auth : AuthContext) (auditId : String) (st : GuardStore) :
    Except String ToolResult × GuardStore :=
  let pr := backend.getDataProfile dataset_id
  if pr.success = false then
    (.error ("Preprocessing suggestion failed: " ++ orDefault pr.error "Failed to get data profile"), st)
  else
    match pr.profile with
    | none =>
      -- `profileResult.profile!` dereferenced while undefined: the TypeError
      -- is caught and re-wrapped by the same catch block.
      (.error "Preprocessing suggestion failed: Cannot read properties of undefined (reading 'missingRate')", st)
    | some profile =>
      let candidates := generatePreprocessSuggestions profile
      let (sessionId, st') := createSession now rand dataset_id
        (candidates.map (·.preset_id)) ⟨auth.user, auth.tenant⟩ st
      (.ok (.suggestOk candidates auditId sessionId), st')

/-- `confirmPreprocessed` (server.ts line 341-401).  Note line 377: a brand-new
session id `sess_${Date.now()}_${...}` is generated instead of reusing the id
created at suggestion time; `now`/`rand` are that fresh id's components. -/
def confirmPreprocessed (backend : Backend) (now rand : Nat)
    (dataset_id processed_uri : String) (manifest : Manifest)
    (auditId : String) (st : GuardStore) : Except String ToolResult × GuardStore :=
  match getSessionByDataset st dataset_id with
  | none =>
    (.ok (.errorResp (errorNext "SESSION_NOT_FOUND"
      "データセットのセッションが見つかりません。先に suggest_preprocess を実行してください。"
      [{ tool := "toorpia_suggest_preprocess", args := .suggest dataset_id }]
      auditId)), st)
  | some session =>
    if session.suggestedPresetIds.contains manifest.preset_id = false then
      (.error ("Preprocessing confirmation failed: Invalid preset_id. Must be one of: " ++
        String.intercalate ", " session.suggestedPresetIds), st)
    else
      let validation := backend.validateProcessedData processed_uri manifest.checksum
      if validation.valid = false then
        (.error ("Preprocessing confirmation failed: " ++
          orDefault validation.error "Processed data validation failed"), st)
      else
        let sessionId : SessionId := ⟨now, rand⟩
        let (updated, st') := updateSession sessionId .READY
          (some { uri := processed_uri, checksum := manifest.checksum,
                  presetId := manifest.preset_id, profileId := manifest.profile_id,
                  recipeVersion := manifest.recipe_version, rowCount := manifest.row_count,
                  schema := manifest.schema }) st
        if updated = false then
          (.error "Preprocessing confirmation failed: Failed to update session state", st')
        else
          (.ok (.confirmOk sessionId auditId), st')

/-- `runAnalysis` (server.ts line 403-448): READY gate first; a gate failure is
returned as the tool's result value; backend errors are caught into a
success=false result; completion advances the session to `ANALYZED`. -/
def runAnalysisTool (backend : Backend) (session_id : SessionId)
    (analysis_type : Option String) (auth : AuthContext) (auditId : String)
    (st : GuardStore) : Except String ToolResult × GuardStore :=
  let gate := checkReadyGate st session_id auth auditId
  if gate.passed = false then
    match gate.error with
    | some e => (.ok (.errorResp e), st)
    | none => (.ok (.errorResp (errorNext "UNDEFINED" "" [] auditId)), st)
  else
    match gate.session with
    | none =>
      -- `gateCheck.session!` undefined: unreachable from `checkReadyGate`.
      (.ok (.runOk false none session_id auditId
        (some "Cannot read properties of undefined (reading 'processed')")), st)
    | some session =>
      match session.processed with
      | none =>
        -- `session.processed!.uri` while undefined: TypeError caught into the
        -- success=false result object.
        (.ok (.runOk false none session_id auditId
          (some "Cannot read properties of undefined (reading 'uri')")), st)
      | some processed =>
        match backend.runAnalysisWithSession session_id processed.uri
            (orDefault analysis_type "clustering") with
        | .error e => (.ok (.runOk false none session_id auditId (some e)), st)
        | .ok res =>
          let (_, st') := updateSession session_id .ANALYZED none st
          (.ok (.runOk res.success res.analysisId session_id auditId res.error), st')

/-- `getAnalysisStatus` (server.ts line 450-490). -/
def getAnalysisStatusTool (backend : Backend) (analysis_id : String)
    (auditId : String) (st : GuardStore) : Except String ToolResult × GuardStore :=
  match backend.getAnalysisStatus analysis_id with
  | .ok r => (.ok (.statusOk r.success analysis_id auditId), st)
  | .error _ => (.ok (.statusOk false analysis_id auditId), st)

/-- `collectFeedback` (server.ts line 492-528): file persistence is external;
a write failure is caught into a success=false result. -/
def collectFeedbackTool (backend : Backend) (auditId : String) (st : GuardStore) :
    Except String ToolResult × GuardStore :=
  match backend.writeFeedback with
  | .ok _ => (.ok (.feedbackOk true auditId), st)
  | .error _ => (.ok (.feedbackOk false auditId), st)

/-- `executeTool` (server.ts line 235-278): dispatch on the tool name with the
scope checks exactly where the switch places them (before Zod parsing). -/
def executeTool (backend : Backend) (now rand : Nat) (toolName : String)
    (args : ToolArgs) (auth : AuthContext) (auditId : String) (st : GuardStore) :
    Except String ToolResult × GuardStore :=
  if toolName = "toorpia_upload_data" then
    match args with
    | .upload csv fn => uploadDataTool backend csv fn auditId st
    | _ => (.error "Invalid tool input", st)
  else if toolName = "toorpia_suggest_preprocess" then
    if checkScope auth "mcp:profile" = false then
      (.error "Insufficient permissions: mcp:profile scope required", st)
    else match args with
    | .suggest d _ => suggestPreprocess backend now rand d auth auditId st
    | _ => (.error "Invalid tool input", st)
  else if toolName = "toorpia_confirm_preprocessed" then
    if checkScope auth "mcp:profile" = false then
      (.error "Insufficient permissions: mcp:profile scope required", st)
    else match args with
    | .confirm d uri manifest => confirmPreprocessed backend now rand d uri manifest auditId st
    | _ => (.error "Invalid tool input", st)
  else if toolName = "toorpia_run_analysis" then
    if checkScope auth "mcp:analyze" = false then
      (.error "Insufficient permissions: mcp:analyze scope required", st)
    else match args with
    | .run sid atype _ => runAnalysisTool backend sid atype auth auditId st
    | _ => (.error "Invalid tool input", st)
  else if toolName = "toorpia_get_status" then
    match args with
    | .status aid => getAnalysisStatusTool backend aid auditId st
    | _ => (.error "Invalid tool input", st)
  else if toolName = "toorpia_collect_feedback" then
    match args with
    | .feedback _ _ _ => collectFeedbackTool backend auditId st
    | _ => (.error "Invalid tool input", st)
  else (.error ("Unknown tool: " ++ toolName), st)

/-! ## Audit recorder (src/utils/audit.ts) -/

/-- One line of `tool_calls.jsonl` (audit.ts line 38-51).  The wall-clock
`timestamp` string is omitted (pure environment input, inspected by no claim). -/
structure AuditRecord where
  user : String
  tenant : String
  scopes : List String
  tool : String
  input_hash : String
  preset_id : Option String
  session_id : Option SessionId
  output_uri : Option String
  audit_id : String
  success : Bool
  error : Option String
  deriving DecidableEq, Repr

/-- `writeAuditLog` (audit.ts line 27-60): builds the record, hashing the raw
input payload.  The append itself is external I/O (best-effort). -/
def writeAuditLog (auth : AuthContext) (tool : String) (input : Json)
    (success : Bool) (auditId : String) (presetId : Option String)
    (sessionId : Option SessionId) (outputUri : Option String)
    (error : Option String) : AuditRecord :=
  { user := auth.user, tenant := auth.tenant, scopes := auth.scopes,
    tool := tool, input_hash := hashInput input, preset_id := presetId,
    session_id := sessionId, output_uri := outputUri, audit_id := auditId,
    success := success, error := error }

/-! ## Call dispatcher (src/server.ts line 137-184) -/

inductive CallOutcome where
  | success (result : ToolResult)
  | mcpError (message : String)
  deriving DecidableEq, Repr

/-- One inbound tool call: the raw arguments (hashed for audit) and their
parsed form, plus the credential carried in `_meta.authorization`. -/
structure CallRequest where
  toolName : String
  rawArgs : Json
  args : ToolArgs
  authHeader : Option String

structure HandlerResult where
  outcome : CallOutcome
  records : List AuditRecord
  store : GuardStore

/-- The `CallToolRequestSchema` handler (server.ts line 137-184): generate an
audit id, authenticate with `skipAuth := (NODE_ENV === 'development')`,
execute, and audit.  On any thrown error the catch block re-authenticates
with `skipAuth := true` (the bypass, forced) to attribute the failure record,
then rethrows as an `McpError`. -/
def handleCallTool (env : Env) (verify : String → Except String AuthContext)
    (backend : Backend) (now rand : Nat) (auditId : String) (req : CallRequest)
    (st : GuardStore) : HandlerResult :=
  match authenticateRequest env verify req.authHeader (env.nodeEnv == "development") with
  | .error e =>
    match authenticateRequest env verify req.authHeader true with
    | .ok auth2 =>
      { outcome := .mcpError ("Error executing tool " ++ req.toolName ++ ": " ++ e),
        records := [writeAuditLog auth2 req.toolName req.rawArgs false auditId
          none none none (some e)],
        store := st }
    | .error _ =>
      { outcome := .mcpError ("Error executing tool " ++ req.toolName ++ ": " ++ e),
        records := [], store := st }
  | .ok auth =>
    match executeTool backend now rand req.toolName req.args auth auditId st with
    | (.ok result, st') =>
      { outcome := .success result,
        records := [writeAuditLog auth req.toolName req.rawArgs true auditId
          (resultPresetId result) (resultSessionId result) none none],
        store := st' }
    | (.error e, st') =>
      match authenticateRequest env verify req.authHeader true with
      | .ok auth2 =>
        { outcome := .mcpError ("Error executing tool " ++ req.toolName ++ ": " ++ e),
          records := [writeAuditLog auth2 req.toolName req.rawArgs false auditId
            none none none (some e)],
          store := st' }
      | .error _ =>
        { outcome := .mcpError ("Error executing tool " ++ req.toolName ++ ": " ++ e),
          records := [], store := st' }

/-! ## Reachable stores

The store operations the dispatcher actually performs (spec §4.2/§4.3):
session creation via suggestion, confirmation, analysis execution, and the
periodic expiry sweep.  Every oracle input is arbitrary. -/

inductive Reachable : GuardStore → Prop where
  | empty : Reachable GuardStore.empty
  | suggest (backend : Backend) (now rand : Nat) (dataset_id : String)
      (auth : AuthContext) (auditId : String) {st : GuardStore} :
      Reachable st →
      Reachable (suggestPreprocess backend now rand dataset_id auth auditId st).2
  | confirm (backend : Backend) (now rand : Nat) (d uri : String) (m : Manifest)
      (auditId : String) {st : GuardStore} :
      Reachable st →
      Reachable (confirmPreprocessed backend now rand d uri m auditId st).2
  | analyze (backend : Backend) (sid : SessionId) (atype : Option String)
      (auth : AuthContext) (auditId : String) {st : GuardStore} :
      Reachable st →
      Reachable (runAnalysisTool backend sid atype auth auditId st).2
  | sweep (now maxAgeMs : Nat) {st : GuardStore} :
      Reachable st → Reachable (cleanupSessions now maxAgeMs st)

/-- The spec §3 invariant: `processed` is present iff the state is `READY` or
`ANALYZED`, for every session the store holds. -/
def ProcessedInv (st : GuardStore) : Prop :=
  ∀ e ∈ st.sessions, ((e : SessionId × Session).2.processed.isSome ↔
    e.2.state = State.READY ∨ e.2.state = State.ANALYZED)

/-- Key uniqueness of an association list (every store built through the
`Map`-mirroring `aset`/`aerase` from the empty store has it). -/
abbrev NodupKeys {K V : Type} (l : List (K × V)) : Prop :=
  (l.map Prod.fst).Nodup

/-- The scope-normalization rule in the spec's words (§4.1): the explicit list
claim when present, else the space-separated string claim split on spaces
with empty fragments dropped, else the empty scope set. -/
def scopesSpec (p : JWTPayload) : List String :=
  match p.scopes with
  | some l => l
  | none =>
    match p.scope with
    | some s => ((splitChar ' ' s.data).map (⟨·⟩ : List Char → String)).filter
        (fun x => x ≠ "")
    | none => []

/-! ## Concrete fixtures used by witnesses and counterexamples -/

def ownerA : Owner := ⟨"alice", "tenant1"⟩

def authA : AuthContext :=
  { user := "alice", tenant := "tenant1",
    scopes := ["mcp:profile", "mcp:analyze"], token := "tokA" }

def authB : AuthContext :=
  { user := "bob", tenant := "tenant2", scopes := ["mcp:analyze"], token := "tokB" }

def sid1 : SessionId := ⟨1000, 1⟩

def sess1 : Session :=
  { datasetId := "d1", state := .SUGGESTED, suggestedPresetIds := ["a", "b"],
    processed := none, owner := ownerA }

def store1 : GuardStore :=
  { sessions := [(sid1, sess1)], sessionsByDataset := [("d1", sid1)] }

def sessReg : Session := { sess1 with state := .REGISTERED }

def regStore : GuardStore :=
  { sessions := [(sid1, sessReg)], sessionsByDataset := [("d1", sid1)] }

def manifest1 : Manifest :=
  { preset_id := "a", profile_id := "p1", recipe_version := "v1.0",
    checksum := "sha256:abc", row_count := 100,
    schema := { time_col := "ts", value_cols := ["v1"] } }

/-- A backend oracle whose calls all succeed. -/
def okBackend : Backend :=
  { uploadData := fun _ _ => .ok ⟨true, some "data1", none, none, none⟩,
    getDataProfile := fun _ => ⟨true, some ⟨"sensor_data", 0, none⟩, none⟩,
    validateProcessedData := fun _ _ => ⟨true, none⟩,
    runAnalysisWithSession := fun _ _ _ => .ok ⟨true, some "an1", some "running", none⟩,
    getAnalysisStatus := fun _ => .ok ⟨true, some "an1", some "done", none⟩,
    writeFeedback := .ok () }

def prodEnv : Env := { nodeEnv := "production", skipAuthEnv := some "true" }

/-- A verifier accepting exactly the token `tokB` as the tenant-2 caller. -/
def verifyB : String → Except String AuthContext :=
  fun t => if t = "tokB" then .ok authB else .error "JWT verification failed: invalid signature"

/-- A verifier accepting exactly the token `tokA` as the tenant-1 caller. -/
def verifyA : String → Except String AuthContext :=
  fun t => if t = "tokA" then .ok authA else .error "JWT verification failed: invalid signature"

/-- A verifier rejecting every credential. -/
def failVerify : String → Except String AuthContext :=
  fun _ => .error "JWT verification failed: invalid signature"

/-- A caller holding only the profile scope. -/
def authC : AuthContext :=
  { user := "carol", tenant := "tenant3", scopes := ["mcp:profile"], token := "tokC" }

/-- A verifier accepting exactly the token `tokC` as the profile-only caller. -/
def verifyC : String → Except String AuthContext :=
  fun t => if t = "tokC" then .ok authC else .error "JWT verification failed: invalid signature"

/-- Tenant-2 caller requesting analysis of tenant-1's session. -/
def reqRunB : CallRequest :=
  { toolName := "toorpia_run_analysis", rawArgs := Json.obj [("session_id", Json.str "sess_1000_1")],
    args := .run sid1 none none, authHeader := some "Bearer tokB" }

/-- A call presenting a credential no verifier accepts. -/
def reqBadTok : CallRequest :=
  { toolName := "toorpia_get_status", rawArgs := Json.obj [("analysis_id", Json.str "an1")],
    args := .status "an1", authHeader := some "Bearer junk" }

/-- The store produced by one successful suggestion call on the empty store. -/
def suggestStore : GuardStore :=
  (suggestPreprocess okBackend 5 7 "d1" authA "audit_s1" GuardStore.empty).2

/-- The session that suggestion call creates. -/
def suggestSess : Session :=
  { datasetId := "d1", state := .SUGGESTED,
    suggestedPresetIds := ["sensor_clean_outlier_norm"], processed := none,
    owner := ⟨"alice", "tenant1"⟩ }

/-- Dataset `D` suggested at t=0 and again (superseding) at t=10. -/
def c6Store : GuardStore :=
  (createSession 10 1 "D" ["a"] ownerA
    (createSession 0 0 "D" ["a"] ownerA GuardStore.empty).2).2

/-- `c6Store` after the periodic sweep runs at t=86400001 with the default
24-hour retention window. -/
def c6Swept : GuardStore := cleanupSessions 86400001 86400000 c6Store

/-! ## Map lemmas -/

theorem alookup_aerase {K V : Type} [DecidableEq K] (l : List (K × V)) (k k' : K) :
    alookup (aerase l k) k' = if k' = k then none else alookup l k' := by
  induction l with
  | nil => simp [aerase, alookup]
  | cons e t ih =>
    simp only [aerase, alookup]
    by_cases h1 : e.1 = k
    · simp only [if_pos h1, ih]
      by_cases h3 : k' = k
      · simp [h3]
      · simp only [if_neg h3, alookup]
        rw [if_neg (fun h2 : e.1 = k' => h3 (h2.symm.trans h1))]
    · simp only [if_neg h1, alookup]
      by_cases h2 : e.1 = k'
      · rw [if_pos h2, if_neg (fun h3 : k' = k => h1 (h2.trans h3)), if_pos h2]
      · rw [if_neg h2, ih]
        by_cases h3 : k' = k
        · rw [if_pos h3, if_pos h3]
        · rw [if_neg h3, if_neg h3, if_neg h2]

theorem alookup_aset_self {K V : Type} [DecidableEq K] (l : List (K × V)) (k : K) (v : V) :
    alookup (aset l k v) k = some v := by
  simp [aset, alookup]

theorem alookup_aset_ne {K V : Type} [DecidableEq K] (l : List (K × V)) (k k' : K)
    (v : V) (h : k' ≠ k) : alookup (aset l k v) k' = alookup l k' := by
  unfold aset
  simp only [alookup]
  rw [if_neg (fun h' : k = k' => h h'.symm), alookup_aerase, if_neg h]

theorem mem_of_mem_aerase {K V : Type} [DecidableEq K] {l : List (K × V)} {k : K}
    {e : K × V} (h : e ∈ aerase l k) : e ∈ l := by
  induction l with
  | nil => simp [aerase] at h
  | cons e' t ih =>
    by_cases h1 : e'.1 = k
    · simp only [aerase, if_pos h1] at h
      exact List.mem_cons_of_mem _ (ih h)
    · simp only [aerase, if_neg h1, List.mem_cons] at h
      rcases h with h | h
      · exact h ▸ List.mem_cons_self _ _
      · exact List.mem_cons_of_mem _ (ih h)

theorem alookup_mem {K V : Type} [DecidableEq K] {l : List (K × V)} {k : K} {v : V}
    (h : alookup l k = some v) : (k, v) ∈ l := by
  induction l with
  | nil => simp [alookup] at h
  | cons e t ih =>
    by_cases h1 : e.1 = k
    · simp only [alookup, if_pos h1] at h
      cases h
      rcases e with ⟨k1, v1⟩
      cases h1
      exact List.mem_cons_self _ _
    · simp only [alookup, if_neg h1] at h
      exact List.mem_cons_of_mem _ (ih h)

theorem processedInv_empty : ProcessedInv GuardStore.empty := by
  intro e he
  simp [GuardStore.empty] at he

theorem processedInv_createSession {st : GuardStore} (h : ProcessedInv st)
    (now rand : Nat) (d : String) (presets : List String) (o : Owner) :
    ProcessedInv (createSession now rand d presets o st).2 := by
  intro e he
  simp only [createSession, aset, List.mem_cons] at he
  rcases he with he | he
  · subst he; simp
  · exact h e (mem_of_mem_aerase he)

theorem processedInv_updateSession_some {st : GuardStore} (h : ProcessedInv st)
    (sid : SessionId) (state : State) (p : ProcessedRecord)
    (hstate : state = State.READY ∨ state = State.ANALYZED) :
    ProcessedInv (updateSession sid state (some p) st).2 := by
  unfold updateSession
  cases hl : alookup st.sessions sid with
  | none => exact h
  | some session =>
    intro e he
    simp only [aset, List.mem_cons] at he
    rcases he with he | he
    · subst he; simpa using hstate
    · exact h e (mem_of_mem_aerase he)

theorem processedInv_updateSession_analyzed {st : GuardStore} (h : ProcessedInv st)
    (sid : SessionId) {old : Session} (hl : alookup st.sessions sid = some old)
    (hready : old.state = State.READY) :
    ProcessedInv (updateSession sid State.ANALYZED none st).2 := by
  have hmem := alookup_mem hl
  have hsome : old.processed.isSome := (h _ hmem).mpr (Or.inl hready)
  unfold updateSession
  rw [hl]
  intro e he
  simp only [aset, List.mem_cons] at he
  rcases he with he | he
  · subst he; simpa using hsome
  · exact h e (mem_of_mem_aerase he)

theorem checkReadyGate_passed {st : GuardStore} {sid : SessionId}
    {auth : AuthContext} {aid : String}
    (h : (checkReadyGate st sid auth aid).passed = true) :
    ∃ sess, alookup st.sessions sid = some sess ∧ sess.state = State.READY ∧
      (checkReadyGate st sid auth aid).session = some sess := by
  unfold checkReadyGate at h ⊢
  cases hl : alookup st.sessions sid with
  | none => simp [hl] at h
  | some sess =>
    rw [hl] at h
    by_cases h1 : sess.owner.user ≠ auth.user ∨ sess.owner.tenant ≠ auth.tenant
    · simp [h1] at h
    · by_cases h2 : sess.state ≠ State.READY
      · simp [h1, h2] at h
      · push_neg at h2
        exact ⟨sess, rfl, h2, by simp [h1, h2]⟩

theorem fold_cleanup_sessions_subset (ids : List SessionId) (st : GuardStore)
    {e : SessionId × Session}
    (h : e ∈ (ids.foldl cleanupStep st).sessions) : e ∈ st.sessions := by
  induction ids generalizing st with
  | nil => simpa using h
  | cons id t ih =>
    simp only [List.foldl_cons] at h
    have h' := ih _ h
    revert h'
    unfold cleanupStep
    cases alookup st.sessions id <;> intro h' <;>
      first
        | exact h'
        | exact mem_of_mem_aerase h'

theorem processedInv_cleanup {st : GuardStore} (h : ProcessedInv st)
    (now maxAgeMs : Nat) : ProcessedInv (cleanupSessions now maxAgeMs st) := by
  intro e he
  exact h e (fold_cleanup_sessions_subset _ _ he)

theorem processedInv_suggest {st : GuardStore} (h : ProcessedInv st)
    (backend : Backend) (now rand : Nat) (d : String) (auth : AuthContext)
    (aid : String) :
    ProcessedInv (suggestPreprocess backend now rand d auth aid st).2 := by
  simp only [suggestPreprocess]
  split
  · exact h
  · split
    · exact h
    · exact processedInv_createSession h _ _ _ _ _

theorem processedInv_confirm {st : GuardStore} (h : ProcessedInv st)
    (backend : Backend) (now rand : Nat) (d uri : String) (m : Manifest)
    (aid : String) :
    ProcessedInv (confirmPreprocessed backend now rand d uri m aid st).2 := by
  simp only [confirmPreprocessed]
  split
  · exact h
  · split
    · exact h
    · split
      · exact h
      · split <;> exact processedInv_updateSession_some h _ _ _ (Or.inl rfl)

theorem processedInv_analyze {st : GuardStore} (h : ProcessedInv st)
    (backend : Backend) (sid : SessionId) (atype : Option String)
    (auth : AuthContext) (aid : String) :
    ProcessedInv (runAnalysisTool backend sid atype auth aid st).2 := by
  simp only [runAnalysisTool]
  split
  · -- gate failed: the error (or fallback) response leaves the store alone
    split <;> exact h
  · -- gate passed
    rename_i hpassed
    have hp' : (checkReadyGate st sid auth aid).passed = true := by
      revert hpassed
      cases (checkReadyGate st sid auth aid).passed <;> simp
    obtain ⟨sess, hl, hready, hsess⟩ := checkReadyGate_passed hp'
    split
    · exact h
    · rename_i session hsession
      split
      · exact h
      · split
        · exact h
        · have hsesseq : sess = session := by
            rw [hsess] at hsession
            exact Option.some.inj hsession
          exact processedInv_updateSession_analyzed h sid hl (hsesseq ▸ hready)

/-! ## Expiry-sweep lemmas -/

theorem cleanupStep_sessions_lookup_ne (st : GuardStore) (id id' : SessionId)
    (h : id ≠ id') :
    alookup (cleanupStep st id').sessions id = alookup st.sessions id := by
  unfold cleanupStep
  split
  · simp only [alookup_aerase, if_neg h]
  · rfl

theorem foldl_cleanupStep_not_mem (ids : List SessionId) (st : GuardStore)
    (id : SessionId) (h : id ∉ ids) :
    alookup (ids.foldl cleanupStep st).sessions id = alookup st.sessions id := by
  induction ids generalizing st with
  | nil => rfl
  | cons id' t ih =>
    simp only [List.foldl_cons]
    have hne : id ≠ id' := fun he => h (he ▸ List.mem_cons_self _ _)
    rw [ih _ (fun hm => h (List.mem_cons_of_mem _ hm)),
      cleanupStep_sessions_lookup_ne st id id' hne]

theorem foldl_cleanupStep_sessions_none (ids : List SessionId) (st : GuardStore)
    (id : SessionId) (h : alookup st.sessions id = none) :
    alookup (ids.foldl cleanupStep st).sessions id = none := by
  induction ids generalizing st with
  | nil => exact h
  | cons id' t ih =>
    simp only [List.foldl_cons]
    apply ih
    unfold cleanupStep
    split
    · simp only [alookup_aerase]
      split
      · rfl
      · exact h
    · exact h

theorem foldl_cleanupStep_byDataset_none (ids : List SessionId) (st : GuardStore)
    (d : String) (h : alookup st.sessionsByDataset d = none) :
    alookup (ids.foldl cleanupStep st).sessionsByDataset d = none := by
  induction ids generalizing st with
  | nil => exact h
  | cons id' t ih =>
    simp only [List.foldl_cons]
    apply ih
    unfold cleanupStep
    split
    · simp only [alookup_aerase]
      split
      · rfl
      · exact h
    · exact h

theorem foldl_cleanupStep_removes (ids : List SessionId) (st : GuardStore)
    (id : SessionId) (sess : Session) (hmem : id ∈ ids) (hnd : ids.Nodup)
    (hl : alookup st.sessions id = some sess) :
    alookup (ids.foldl cleanupStep st).sessions id = none ∧
    alookup (ids.foldl cleanupStep st).sessionsByDataset sess.datasetId = none := by
  induction ids generalizing st with
  | nil => cases hmem
  | cons id' t ih =>
    simp only [List.foldl_cons]
    rcases List.mem_cons.mp hmem with he | hm
    · subst he
      have hstep : cleanupStep st id =
          { sessions := aerase st.sessions id,
            sessionsByDataset := aerase st.sessionsByDataset sess.datasetId } := by
        unfold cleanupStep
        rw [hl]
      rw [hstep]
      constructor
      · exact foldl_cleanupStep_sessions_none _ _ _ (by simp [alookup_aerase])
      · exact foldl_cleanupStep_byDataset_none _ _ _ (by simp [alookup_aerase])
    · have hne : id ≠ id' := by
        intro he
        subst he
        exact (List.nodup_cons.mp hnd).1 hm
      exact ih _ hm (List.nodup_cons.mp hnd).2
        (by rw [cleanupStep_sessions_lookup_ne st id id' hne]; exact hl)

/-- A sweep run while the session is within the retention window leaves its
session-index entry untouched. -/
theorem cleanup_lookup_nonexpired {st : GuardStore} {id : SessionId}
    {now maxAgeMs : Nat} (h : ¬ maxAgeMs < now - id.timestamp) :
    getSession (cleanupSessions now maxAgeMs st) id = getSession st id := by
  unfold cleanupSessions getSession
  apply foldl_cleanupStep_not_mem
  intro hmem
  obtain ⟨e, he, hfst⟩ := List.mem_map.mp hmem
  obtain ⟨_, hp⟩ := List.mem_filter.mp he
  rw [hfst] at hp
  exact h (by simpa using hp)

/-- A sweep run after the retention window removes the expired session from
the session index and deletes the dataset-index entry under its dataset key
in the same step. -/
theorem cleanup_removes_expired {st : GuardStore} {id : SessionId} {sess : Session}
    {now maxAgeMs : Nat} (hnd : NodupKeys st.sessions)
    (hl : alookup st.sessions id = some sess) (h : maxAgeMs < now - id.timestamp) :
    getSession (cleanupSessions now maxAgeMs st) id = none ∧
    alookup (cleanupSessions now maxAgeMs st).sessionsByDataset sess.datasetId = none := by
  unfold cleanupSessions getSession
  apply foldl_cleanupStep_removes
  · exact List.mem_map.mpr
      ⟨(id, sess), List.mem_filter.mpr ⟨alookup_mem hl, by simpa using h⟩, rfl⟩
  · exact List.Nodup.sublist
      ((List.filter_sublist st.sessions).map Prod.fst) hnd
  · exact hl

/-! ## READY-gate helper lemmas -/

theorem checkReadyGate_error_auditId {st : GuardStore} {sid : SessionId}
    {auth : AuthContext} {aid : String} {e : ErrorResponse}
    (h : (checkReadyGate st sid auth aid).error = some e) : e.audit_id = aid := by
  unfold checkReadyGate at h
  cases hl : alookup st.sessions sid with
  | none =>
    rw [hl] at h
    dsimp only at h
    cases h
    rfl
  | some sess =>
    rw [hl] at h
    dsimp only at h
    by_cases h1 : sess.owner.user ≠ auth.user ∨ sess.owner.tenant ≠ auth.tenant
    · rw [if_pos h1] at h
      dsimp only at h
      cases h
      rfl
    · rw [if_neg h1] at h
      by_cases h2 : sess.state ≠ State.READY
      · rw [if_pos h2] at h
        dsimp only at h
        cases h
        rfl
      · rw [if_neg h2] at h
        dsimp only at h
        cases h

theorem checkReadyGate_error_passed {st : GuardStore} {sid : SessionId}
    {auth : AuthContext} {aid : String} {e : ErrorResponse}
    (h : (checkReadyGate st sid auth aid).error = some e) :
    (checkReadyGate st sid auth aid).passed = false := by
  unfold checkReadyGate at h ⊢
  cases hl : alookup st.sessions sid with
  | none => rfl
  | some sess =>
    rw [hl] at h
    dsimp only at h ⊢
    by_cases h1 : sess.owner.user ≠ auth.user ∨ sess.owner.tenant ≠ auth.tenant
    · rw [if_pos h1]
    · rw [if_neg h1] at h ⊢
      by_cases h2 : sess.state ≠ State.READY
      · rw [if_pos h2]
      · rw [if_neg h2] at h
        dsimp only at h
        cases h

/-- Every reachable store satisfies the processed-iff-state invariant. -/
theorem reachable_processedInv {st : GuardStore} (h : Reachable st) :
    ProcessedInv st := by
  induction h with
  | empty => exact processedInv_empty
  | suggest backend now rand d auth aid _ ih => exact processedInv_suggest ih backend now rand d auth aid
  | confirm backend now rand d uri m aid _ ih => exact processedInv_confirm ih backend now rand d uri m aid
  | analyze backend sid atype auth aid _ ih => exact processedInv_analyze ih backend sid atype auth aid
  | sweep now maxAgeMs _ ih => exact processedInv_cleanup ih now maxAgeMs

/-! ## Claim theorems -/

-- Sanity anchors for the SHA-256 embedding, against the published test vectors.
theorem sha256_vector_abc :
    sha256hex "abc" = "ba7816bf8f01cfea414140de5dae2223b00361a396177a9cb410ff61f20015ad" := by
  decide

theorem sha256_vector_empty :
    sha256hex "" = "e3b0c44298fc1c149afbf4c8996fb92427ae41e4649b934ca495991b7852b855" := by
  decide

/-- Claim C1, evaluated at the failing input (code bug): dataset `d1` has a
`SUGGESTED` session (id `sess_1000_1`) whose candidate list contains the
chosen preset `a`, and the backend validates the artifact; yet
`confirmPreprocessed` throws `Failed to update session state` — line 377
generates a brand-new session id (`sess_2000_7` here), which is not in the
store, so `updateSession` returns false — and the store is left unchanged:
the suggestion's session never reaches `READY` and no processed record is
attached.  The spec (§4.3, §9) mandates that confirmation reuse the
suggestion's session id and transition it to `READY`. -/
theorem C1_confirm_bug :
    (confirmPreprocessed okBackend 2000 7 "d1" "file://x" manifest1 "audit_c1" store1).1 =
      .error "Preprocessing confirmation failed: Failed to update session state" ∧
    (confirmPreprocessed okBackend 2000 7 "d1" "file://x" manifest1 "audit_c1" store1).2 =
      store1 ∧
    getSessionByDataset store1 "d1" = some sess1 ∧
    sess1.state = State.SUGGESTED ∧
    sess1.suggestedPresetIds.contains manifest1.preset_id = true ∧
    (okBackend.validateProcessedData "file://x" manifest1.checksum).valid = true := by
  decide

/-- Claim C4: when the stored session's owner differs from the caller (in user
or tenant), `checkReadyGate` returns exactly the `ACCESS_DENIED` error with an
empty remediation list.  The right-hand side mentions neither the session's
state nor any other field of it, so the response is identical for every
possible state: ownership is evaluated strictly before state and the response
reveals nothing about the state. -/
theorem C4_gate_access_denied (st : GuardStore) (sid : SessionId) (sess : Session)
    (auth : AuthContext) (aid : String)
    (hl : alookup st.sessions sid = some sess)
    (hown : sess.owner.user ≠ auth.user ∨ sess.owner.tenant ≠ auth.tenant) :
    checkReadyGate st sid auth aid =
      { passed := false, session := none,
        error := some (errorNext "ACCESS_DENIED"
          "このセッションにアクセスする権限がありません。" [] aid) } := by
  unfold checkReadyGate
  rw [hl]
  dsimp only
  rw [if_pos hown]

theorem C4_gate_access_denied_witness :
    checkReadyGate store1 sid1 authB "audit_w4" =
      { passed := false, session := none,
        error := some (errorNext "ACCESS_DENIED"
          "このセッションにアクセスする権限がありません。" [] "audit_w4") } :=
  C4_gate_access_denied store1 sid1 sess1 authB "audit_w4" (by decide) (by decide)

/-- Claim C5: in every store reachable through the dispatcher's operations
(suggestion, confirmation, analysis, expiry sweeps — with arbitrary backend
and authentication oracles), every stored session has its `processed` record
present exactly when its state is `READY` or `ANALYZED`. -/
theorem C5_processed_iff_ready_analyzed :
    ∀ st : GuardStore, Reachable st → ∀ (sid : SessionId) (sess : Session),
      getSession st sid = some sess →
      (sess.processed.isSome ↔ sess.state = State.READY ∨ sess.state = State.ANALYZED) :=
  fun _ h _ _ hl => reachable_processedInv h _ (alookup_mem hl)

theorem C5_processed_iff_ready_analyzed_witness :
    Reachable suggestStore ∧
    getSession suggestStore ⟨5, 7⟩ = some suggestSess ∧
    (suggestSess.processed.isSome ↔
      suggestSess.state = State.READY ∨ suggestSess.state = State.ANALYZED) :=
  ⟨Reachable.suggest okBackend 5 7 "d1" authA "audit_s1" Reachable.empty,
   by decide,
   C5_processed_iff_ready_analyzed suggestStore
     (Reachable.suggest okBackend 5 7 "d1" authA "audit_s1" Reachable.empty)
     ⟨5, 7⟩ suggestSess (by decide)⟩

/-- Claim C7: re-creating a session for the same dataset supersedes the prior
one — the dataset-keyed lookup returns only the newest session, while the
superseded one stays addressable by its own id, and remains so under every
sweep run within its retention window. -/
theorem C7_dataset_supersession (st : GuardStore) (d : String) (t1 r1 t2 r2 : Nat)
    (p1 p2 : List String) (o1 o2 : Owner)
    (hne : (⟨t1, r1⟩ : SessionId) ≠ ⟨t2, r2⟩) :
    getSessionByDataset (createSession t2 r2 d p2 o2 (createSession t1 r1 d p1 o1 st).2).2 d =
      some { datasetId := d, state := .SUGGESTED, suggestedPresetIds := p2,
             processed := none, owner := o2 } ∧
    getSession (createSession t2 r2 d p2 o2 (createSession t1 r1 d p1 o1 st).2).2 ⟨t1, r1⟩ =
      some { datasetId := d, state := .SUGGESTED, suggestedPresetIds := p1,
             processed := none, owner := o1 } ∧
    (∀ now maxAgeMs : Nat, ¬ maxAgeMs < now - t1 →
      getSession (cleanupSessions now maxAgeMs
          (createSession t2 r2 d p2 o2 (createSession t1 r1 d p1 o1 st).2).2) ⟨t1, r1⟩ =
        some { datasetId := d, state := .SUGGESTED, suggestedPresetIds := p1,
               processed := none, owner := o1 }) := by
  refine ⟨?_, ?_, ?_⟩
  · simp only [getSessionByDataset, createSession, alookup_aset_self]
  · simp only [getSession, createSession, alookup_aset_ne _ _ _ _ hne, alookup_aset_self]
  · intro now maxAgeMs hfresh
    rw [cleanup_lookup_nonexpired hfresh]
    simp only [getSession, createSession, alookup_aset_ne _ _ _ _ hne, alookup_aset_self]

theorem C7_dataset_supersession_witness :
    getSessionByDataset (createSession 20 2 "d9" ["q"] ownerA
        (createSession 10 1 "d9" ["p"] ownerA GuardStore.empty).2).2 "d9" =
      some { datasetId := "d9", state := .SUGGESTED, suggestedPresetIds := ["q"],
             processed := none, owner := ownerA } ∧
    getSession (createSession 20 2 "d9" ["q"] ownerA
        (createSession 10 1 "d9" ["p"] ownerA GuardStore.empty).2).2 ⟨10, 1⟩ =
      some { datasetId := "d9", state := .SUGGESTED, suggestedPresetIds := ["p"],
             processed := none, owner := ownerA } ∧
    (∀ now maxAgeMs : Nat, ¬ maxAgeMs < now - 10 →
      getSession (cleanupSessions now maxAgeMs
          (createSession 20 2 "d9" ["q"] ownerA
            (createSession 10 1 "d9" ["p"] ownerA GuardStore.empty).2).2) ⟨10, 1⟩ =
        some { datasetId := "d9", state := .SUGGESTED, suggestedPresetIds := ["p"],
               processed := none, owner := ownerA }) :=
  C7_dataset_supersession GuardStore.empty "d9" 10 1 20 2 ["p"] ["q"] ownerA ownerA
    (by decide)

/-- Claim C8 counterexample: the remediation tool names carry the `toorpia_`
prefix.  On an owned `REGISTERED` session the gate's `next[0].tool` is
`"toorpia_suggest_preprocess"`, not `"suggest_preprocess"` as the claim
states, and on a `SUGGESTED` session it is `"toorpia_confirm_preprocessed"`,
not `"confirm_preprocessed"`. -/
theorem C8_counterexample :
    ((checkReadyGate regStore sid1 authA "audit_c8").error.map
      (fun e => (e.error, e.next.map (·.tool)))) =
      some ("PREPROCESS_REQUIRED", ["toorpia_suggest_preprocess"]) ∧
    ¬ "toorpia_suggest_preprocess" = "suggest_preprocess" ∧
    ((checkReadyGate store1 sid1 authA "audit_c8").error.map
      (fun e => (e.error, e.next.map (·.tool)))) =
      some ("PREPROCESS_REQUIRED", ["toorpia_confirm_preprocessed"]) ∧
    ¬ "toorpia_confirm_preprocessed" = "confirm_preprocessed" := by
  decide

/-- Claim C8 as amended (tool names carry the server's `toorpia_` prefix):
for an owned session, the gate on state `REGISTERED` yields
`PREPROCESS_REQUIRED` with the single remediation
`toorpia_suggest_preprocess(dataset_id)`, and on state `SUGGESTED` yields
`PREPROCESS_REQUIRED` with the single remediation
`toorpia_confirm_preprocessed` carrying the template manifest shape
(`confirmTemplate`). -/
theorem C8_amended (st : GuardStore) (sid : SessionId) (sess : Session)
    (auth : AuthContext) (aid : String)
    (hl : alookup st.sessions sid = some sess)
    (huser : sess.owner.user = auth.user) (htenant : sess.owner.tenant = auth.tenant) :
    (sess.state = State.REGISTERED →
      checkReadyGate st sid auth aid =
        { passed := false, session := none,
          error := some (errorNext "PREPROCESS_REQUIRED"
            "前処理の提案と処理済み確認を完了してください。"
            [{ tool := "toorpia_suggest_preprocess", args := .suggest sess.datasetId }]
            aid) }) ∧
    (sess.state = State.SUGGESTED →
      checkReadyGate st sid auth aid =
        { passed := false, session := none,
          error := some (errorNext "PREPROCESS_REQUIRED"
            "前処理の提案と処理済み確認を完了してください。"
            [confirmTemplate sess] aid) }) := by
  unfold checkReadyGate
  rw [hl]
  dsimp only
  rw [if_neg (by simp [huser, htenant])]
  constructor
  · intro hstate
    simp [hstate]
  · intro hstate
    simp [hstate]

theorem C8_amended_witness :
    checkReadyGate regStore sid1 authA "audit_w8" =
      { passed := false, session := none,
        error := some (errorNext "PREPROCESS_REQUIRED"
          "前処理の提案と処理済み確認を完了してください。"
          [{ tool := "toorpia_suggest_preprocess", args := .suggest "d1" }]
          "audit_w8") } ∧
    checkReadyGate store1 sid1 authA "audit_w8" =
      { passed := false, session := none,
        error := some (errorNext "PREPROCESS_REQUIRED"
          "前処理の提案と処理済み確認を完了してください。"
          [confirmTemplate sess1] "audit_w8") } :=
  ⟨(C8_amended regStore sid1 sessReg authA "audit_w8"
      (by decide) (by decide) (by decide)).1 (by decide),
   (C8_amended store1 sid1 sess1 authA "audit_w8"
      (by decide) (by decide) (by decide)).2 (by decide)⟩

/-- Claim C6 counterexample: supersede the dataset-`D` session created at
t=0 by one created at t=10, then sweep at t=86400001 (24h+1ms, with the 24h
retention window).  Only the superseded session is expired, yet its deletion
also removes the dataset-index entry, which by then points at the newer live
session: afterwards the session created at t=10 — still inside its retention
window — is present in the session index but unreachable through the dataset
index, exactly the state the claim says cannot occur. -/
theorem C6_counterexample :
    (86400000 < 86400001 - 0) ∧
    ¬ (86400000 < 86400001 - (10 : Nat)) ∧
    getSession c6Swept ⟨10, 1⟩ =
      some { datasetId := "D", state := .SUGGESTED, suggestedPresetIds := ["a"],
             processed := none, owner := ownerA } ∧
    getSessionByDataset c6Swept "D" = none ∧
    c6Swept.sessionsByDataset = [] := by
  decide

/-- Claim C6 as amended: a sweep run while a session is inside the retention
window (`now − T ≤ maxAge`) leaves its session-index entry untouched; the
first sweep after the window removes the session record and, in the same
step, the dataset-index entry stored under its `datasetId` — so the expired
session itself is afterwards found in neither index.  (What the
counterexample refutes, and this amendment drops, is the claim that no state
ever has one index without the other: the dataset-index entry deleted with a
superseded expired session is whatever currently occupies its dataset key,
possibly a newer live session's.) -/
theorem C6_amended :
    (∀ (st : GuardStore) (id : SessionId) (now maxAgeMs : Nat),
      ¬ maxAgeMs < now - id.timestamp →
      getSession (cleanupSessions now maxAgeMs st) id = getSession st id) ∧
    (∀ (st : GuardStore) (id : SessionId) (sess : Session) (now maxAgeMs : Nat),
      NodupKeys st.sessions →
      alookup st.sessions id = some sess →
      maxAgeMs < now - id.timestamp →
      getSession (cleanupSessions now maxAgeMs st) id = none ∧
      alookup (cleanupSessions now maxAgeMs st).sessionsByDataset sess.datasetId = none) :=
  ⟨fun _ _ _ _ h => cleanup_lookup_nonexpired h,
   fun _ _ _ _ _ hnd hl h => cleanup_removes_expired hnd hl h⟩

theorem C6_amended_witness :
    getSession (cleanupSessions 5000 86400000 store1) sid1 = getSession store1 sid1 ∧
    getSession (cleanupSessions 90000000 86400000 store1) sid1 = none ∧
    alookup (cleanupSessions 90000000 86400000 store1).sessionsByDataset
      sess1.datasetId = none :=
  ⟨C6_amended.1 store1 sid1 5000 86400000 (by decide),
   (C6_amended.2 store1 sid1 sess1 90000000 86400000 (by decide) (by decide) (by decide)).1,
   (C6_amended.2 store1 sid1 sess1 90000000 86400000 (by decide) (by decide) (by decide)).2⟩

theorem string_pos_length_iff (s : String) : 0 < s.length ↔ s ≠ "" := by
  constructor
  · intro h heq
    subst heq
    simp at h
  · intro h
    cases s with
    | mk data =>
      cases data with
      | nil => exact absurd rfl h
      | cons c t => exact Nat.succ_pos _

/-- Claim C9: scope parsing agrees with the spec's normalization rule — the
explicit list claim wins when present, else the space-separated string claim
split on spaces with empty fragments dropped, else empty — and a verified
payload carrying subject and tenant but neither scope claim yields an
`AuthContext` with an empty scope set, not an error. -/
theorem C9_scope_parsing :
    (∀ p : JWTPayload, parseScopes p = scopesSpec p) ∧
    (∀ (p : JWTPayload) (sub tenant token : String),
      p.sub = some sub → p.tenant = some tenant → sub ≠ "" → tenant ≠ "" →
      p.scope = none → p.scopes = none →
      verifyDecoded p token =
        .ok { user := sub, tenant := tenant, scopes := [], token := token }) := by
  constructor
  · intro p
    unfold parseScopes scopesSpec
    cases p.scopes with
    | some l => rfl
    | none =>
      dsimp only
      cases p.scope with
      | none => rfl
      | some s =>
        dsimp only
        by_cases hs : s = ""
        · subst hs
          rw [if_pos rfl]
          decide
        · rw [if_neg hs]
          apply List.filter_congr
          intro x _
          exact decide_eq_decide.mpr (string_pos_length_iff x)
  · intro p sub tenant token hsub htenant hsubne htenantne hscope hscopes
    have hps : parseScopes p = [] := by
      unfold parseScopes
      rw [hscopes]
      dsimp only
      rw [hscope]
    unfold verifyDecoded
    rw [hsub, htenant]
    dsimp only
    rw [if_neg (by simp [hsubne, htenantne]), hps]

theorem C9_scope_parsing_witness :
    parseScopes ⟨some "u", some "t", some "a  b", none⟩ =
      scopesSpec ⟨some "u", some "t", some "a  b", none⟩ ∧
    parseScopes ⟨some "u", some "t", some "a  b", none⟩ = ["a", "b"] ∧
    verifyDecoded ⟨some "u", some "t", none, none⟩ "tk" =
      .ok { user := "u", tenant := "t", scopes := [], token := "tk" } :=
  ⟨C9_scope_parsing.1 ⟨some "u", some "t", some "a  b", none⟩,
   by decide,
   C9_scope_parsing.2 ⟨some "u", some "t", none, none⟩ "u" "t" "tk"
     rfl rfl (by decide) (by decide) rfl rfl⟩

/-- Claim C3 counterexample: in a non-development runtime
(`NODE_ENV=production`), a call whose credential fails verification still
resolves an identity through the bypass — the dispatcher's catch block
re-authenticates with `skipAuth := true`, so the failure's audit record is
attributed to the fixed development identity (`dev-user@dev-tenant`, full
`*` scope). -/
theorem C3_counterexample :
    prodEnv.nodeEnv ≠ "development" ∧
    (handleCallTool prodEnv failVerify okBackend 0 0 "audit_c3" reqBadTok
        GuardStore.empty).records.map
      (fun r => (r.user, r.tenant, r.scopes, r.success)) =
      [("dev-user", "dev-tenant", ["*"], false)] := by
  decide

/-- Claim C3 as amended: on the tool-execution path the bypass is unreachable
in a non-development runtime — any identity the dispatcher executes with
comes from verifying the presented bearer token — but the error-audit path
always re-authenticates with the bypass forced, yielding the fixed
development identity regardless of the runtime environment. -/
theorem C3_amended :
    (∀ (env : Env) (verify : String → Except String AuthContext)
      (hdr : Option String) (a : AuthContext),
      env.nodeEnv ≠ "development" →
      authenticateRequest env verify hdr (env.nodeEnv == "development") = .ok a →
      ∃ t, extractBearerToken hdr = some t ∧ verify t = .ok a) ∧
    (∀ (env : Env) (verify : String → Except String AuthContext)
      (hdr : Option String),
      authenticateRequest env verify hdr true = .ok devContext) := by
  constructor
  · intro env verify hdr a hne hauth
    unfold authenticateRequest at hauth
    have hb : (env.nodeEnv == "development") = false := beq_eq_false_iff_ne.mpr hne
    rw [hb] at hauth
    cases hext : extractBearerToken hdr with
    | none =>
      rw [hext] at hauth
      simp at hauth
    | some t =>
      rw [hext] at hauth
      simp only [Bool.false_and, Bool.or_false, reduceIte] at hauth
      cases hv : verify t with
      | ok ctx =>
        rw [hv] at hauth
        cases hauth
        exact ⟨t, rfl, hv⟩
      | error e =>
        rw [hv] at hauth
        simp at hauth
  · intro env verify hdr
    rfl

theorem C3_amended_witness :
    (∃ t, extractBearerToken (some "Bearer tokA") = some t ∧ verifyA t = .ok authA) ∧
    authenticateRequest prodEnv verifyA (some "Bearer tokA") true = .ok devContext :=
  ⟨C3_amended.1 prodEnv verifyA (some "Bearer tokA") authA (by decide) (by decide),
   C3_amended.2 prodEnv verifyA (some "Bearer tokA")⟩

/-! ## Dispatcher-path lemmas -/

/-- With `skipAuth := true` (the catch block's re-authentication), the bypass
always yields the fixed development identity. -/
theorem authenticateRequest_skip (env : Env)
    (verify : String → Except String AuthContext) (hdr : Option String) :
    authenticateRequest env verify hdr true = .ok devContext := rfl

/-- The dispatcher's success path: an executed tool returning a value is
answered as a success and audited once, with `success = true`, under the
executing identity. -/
theorem handleCallTool_ok (env : Env) (verify : String → Except String AuthContext)
    (backend : Backend) (now rand : Nat) (auditId : String)
    (tn : String) (raw : Json) (args : ToolArgs) (hdr : Option String)
    (auth : AuthContext) (result : ToolResult) (st st' : GuardStore)
    (hauth : authenticateRequest env verify hdr (env.nodeEnv == "development") = .ok auth)
    (hexec : executeTool backend now rand tn args auth auditId st = (.ok result, st')) :
    handleCallTool env verify backend now rand auditId ⟨tn, raw, args, hdr⟩ st =
      { outcome := .success result,
        records := [writeAuditLog auth tn raw true auditId
          (resultPresetId result) (resultSessionId result) none none],
        store := st' } := by
  unfold handleCallTool
  rw [hauth]
  dsimp only
  rw [hexec]

/-- The dispatcher's throw path: an executed tool throwing is answered as an
`McpError` and audited once with `success = false` — attributed to the
development bypass identity, because the catch block re-authenticates with
`skipAuth := true`. -/
theorem handleCallTool_throw (env : Env) (verify : String → Except String AuthContext)
    (backend : Backend) (now rand : Nat) (auditId : String)
    (tn : String) (raw : Json) (args : ToolArgs) (hdr : Option String)
    (auth : AuthContext) (msg : String) (st st' : GuardStore)
    (hauth : authenticateRequest env verify hdr (env.nodeEnv == "development") = .ok auth)
    (hexec : executeTool backend now rand tn args auth auditId st = (.error msg, st')) :
    handleCallTool env verify backend now rand auditId ⟨tn, raw, args, hdr⟩ st =
      { outcome := .mcpError ("Error executing tool " ++ tn ++ ": " ++ msg),
        records := [writeAuditLog devContext tn raw false auditId
          none none none (some msg)],
        store := st' } := by
  unfold handleCallTool
  rw [hauth]
  dsimp only
  rw [hexec]
  dsimp only
  rw [authenticateRequest_skip env verify hdr]

/-- The dispatcher's authentication-failure path: the call is answered as an
`McpError` and audited once with `success = false` under the bypass identity. -/
theorem handleCallTool_authfail (env : Env) (verify : String → Except String AuthContext)
    (backend : Backend) (now rand : Nat) (auditId : String)
    (tn : String) (raw : Json) (args : ToolArgs) (hdr : Option String)
    (msg : String) (st : GuardStore)
    (hauth : authenticateRequest env verify hdr (env.nodeEnv == "development") = .error msg) :
    handleCallTool env verify backend now rand auditId ⟨tn, raw, args, hdr⟩ st =
      { outcome := .mcpError ("Error executing tool " ++ tn ++ ": " ++ msg),
        records := [writeAuditLog devContext tn raw false auditId
          none none none (some msg)],
        store := st } := by
  unfold handleCallTool
  dsimp only
  rw [hauth]
  dsimp only
  rw [authenticateRequest_skip env verify hdr]

/-- Analysis execution with a failing READY gate returns the gate's
`ErrorResponse` as the tool's result value (not a thrown error). -/
theorem executeTool_run_gate_error (backend : Backend) (now rand : Nat)
    (sid : SessionId) (atype : Option String) (params : Option Json)
    (auth : AuthContext) (auditId : String) (st : GuardStore) (e : ErrorResponse)
    (hscope : checkScope auth "mcp:analyze" = true)
    (hgate : (checkReadyGate st sid auth auditId).error = some e) :
    executeTool backend now rand "toorpia_run_analysis" (.run sid atype params)
      auth auditId st = (.ok (.errorResp e), st) := by
  have hp := checkReadyGate_error_passed hgate
  unfold executeTool
  simp only [String.reduceEq, reduceIte, hscope]
  unfold runAnalysisTool
  simp only [hp, reduceIte, hgate]
  rfl

/-- A scope check failing on analysis execution throws the permission error
before anything else runs. -/
theorem executeTool_run_scope_denied (backend : Backend) (now rand : Nat)
    (sid : SessionId) (atype : Option String) (params : Option Json)
    (auth : AuthContext) (auditId : String) (st : GuardStore)
    (hscope : checkScope auth "mcp:analyze" = false) :
    executeTool backend now rand "toorpia_run_analysis" (.run sid atype params)
      auth auditId st =
      (.error "Insufficient permissions: mcp:analyze scope required", st) := by
  unfold executeTool
  simp only [String.reduceEq, reduceIte, hscope]

/-- Confirmation against a dataset with no live session returns the
`SESSION_NOT_FOUND` response, with the suggestion call as remediation, as the
tool's result value. -/
theorem executeTool_confirm_not_found (backend : Backend) (now rand : Nat)
    (d uri : String) (m : Manifest) (auth : AuthContext) (auditId : String)
    (st : GuardStore)
    (hscope : checkScope auth "mcp:profile" = true)
    (hnf : getSessionByDataset st d = none) :
    executeTool backend now rand "toorpia_confirm_preprocessed" (.confirm d uri m)
      auth auditId st =
      (.ok (.errorResp (errorNext "SESSION_NOT_FOUND"
        "データセットのセッションが見つかりません。先に suggest_preprocess を実行してください。"
        [{ tool := "toorpia_suggest_preprocess", args := .suggest d }] auditId)), st) := by
  unfold executeTool
  simp only [String.reduceEq, reduceIte, hscope]
  unfold confirmPreprocessed
  rw [hnf]
  rfl

/-- Claim C2 counterexample: a tenant-2 caller (valid token, `mcp:analyze`
scope) invoking analysis on tenant-1's session receives the `ACCESS_DENIED`
`ErrorResponse`, and exactly one audit record is written with the matching
audit id — but its `success` field is `true`, not `false` as the claim
states: gate failures are returned as result values, so the dispatcher's
success path audits them. -/
theorem C2_counterexample :
    (handleCallTool prodEnv verifyB okBackend 3000 9 "audit_c2" reqRunB store1).outcome =
      .success (.errorResp (errorNext "ACCESS_DENIED"
        "このセッションにアクセスする権限がありません。" [] "audit_c2")) ∧
    (handleCallTool prodEnv verifyB okBackend 3000 9 "audit_c2" reqRunB store1).records.map
      (fun r => (r.success, r.audit_id)) = [(true, "audit_c2")] := by
  decide

/-- Claim C2 as amended.  (a) A READY-gate failure on analysis execution
(SESSION_NOT_FOUND, ACCESS_DENIED or PREPROCESS_REQUIRED) is returned as an
`ErrorResponse` whose `audit_id` is the call's audit id, and the call writes
exactly one audit record with that same audit id — but with `success = true`.
(b) Likewise for confirmation against a dataset with no session.  (c) An
authentication failure writes exactly one record with `success = false`
(attributed to the bypass identity) and reaches the caller as a thrown
`McpError`, with no `ErrorResponse`.  (d) A scope-authorization failure
behaves like (c), with the permission message. -/
theorem C2_amended :
    (∀ (env : Env) (verify : String → Except String AuthContext) (backend : Backend)
      (now rand : Nat) (auditId : String) (st : GuardStore) (hdr : Option String)
      (raw : Json) (auth : AuthContext) (sid : SessionId) (atype : Option String)
      (params : Option Json) (e : ErrorResponse),
      authenticateRequest env verify hdr (env.nodeEnv == "development") = .ok auth →
      checkScope auth "mcp:analyze" = true →
      (checkReadyGate st sid auth auditId).error = some e →
      handleCallTool env verify backend now rand auditId
        ⟨"toorpia_run_analysis", raw, .run sid atype params, hdr⟩ st =
        { outcome := .success (.errorResp e),
          records := [writeAuditLog auth "toorpia_run_analysis" raw true auditId
            none none none none],
          store := st } ∧
      e.audit_id = auditId) ∧
    (∀ (env : Env) (verify : String → Except String AuthContext) (backend : Backend)
      (now rand : Nat) (auditId : String) (st : GuardStore) (hdr : Option String)
      (raw : Json) (auth : AuthContext) (d uri : String) (m : Manifest),
      authenticateRequest env verify hdr (env.nodeEnv == "development") = .ok auth →
      checkScope auth "mcp:profile" = true →
      getSessionByDataset st d = none →
      handleCallTool env verify backend now rand auditId
        ⟨"toorpia_confirm_preprocessed", raw, .confirm d uri m, hdr⟩ st =
        { outcome := .success (.errorResp (errorNext "SESSION_NOT_FOUND"
            "データセットのセッションが見つかりません。先に suggest_preprocess を実行してください。"
            [{ tool := "toorpia_suggest_preprocess", args := .suggest d }] auditId)),
          records := [writeAuditLog auth "toorpia_confirm_preprocessed" raw true auditId
            none none none none],
          store := st }) ∧
    (∀ (env : Env) (verify : String → Except String AuthContext) (backend : Backend)
      (now rand : Nat) (auditId tn : String) (raw : Json) (args : ToolArgs)
      (hdr : Option String) (msg : String) (st : GuardStore),
      authenticateRequest env verify hdr (env.nodeEnv == "development") = .error msg →
      handleCallTool env verify backend now rand auditId ⟨tn, raw, args, hdr⟩ st =
        { outcome := .mcpError ("Error executing tool " ++ tn ++ ": " ++ msg),
          records := [writeAuditLog devContext tn raw false auditId
            none none none (some msg)],
          store := st }) ∧
    (∀ (env : Env) (verify : String → Except String AuthContext) (backend : Backend)
      (now rand : Nat) (auditId : String) (st : GuardStore) (hdr : Option String)
      (raw : Json) (auth : AuthContext) (sid : SessionId) (atype : Option String)
      (params : Option Json),
      authenticateRequest env verify hdr (env.nodeEnv == "development") = .ok auth →
      checkScope auth "mcp:analyze" = false →
      handleCallTool env verify backend now rand auditId
        ⟨"toorpia_run_analysis", raw, .run sid atype params, hdr⟩ st =
        { outcome := .mcpError ("Error executing tool " ++ "toorpia_run_analysis" ++
            ": " ++ "Insufficient permissions: mcp:analyze scope required"),
          records := [writeAuditLog devContext "toorpia_run_analysis" raw false auditId
            none none none (some "Insufficient permissions: mcp:analyze scope required")],
          store := st }) := by
  refine ⟨?_, ?_, ?_, ?_⟩
  · intro env verify backend now rand auditId st hdr raw auth sid atype params e
      hauth hsc hg
    exact ⟨handleCallTool_ok env verify backend now rand auditId
        "toorpia_run_analysis" raw (.run sid atype params) hdr auth
        (.errorResp e) st st hauth
        (executeTool_run_gate_error backend now rand sid atype params auth auditId st e hsc hg),
      checkReadyGate_error_auditId hg⟩
  · intro env verify backend now rand auditId st hdr raw auth d uri m hauth hsc hnf
    exact handleCallTool_ok env verify backend now rand auditId
      "toorpia_confirm_preprocessed" raw (.confirm d uri m) hdr auth _ st st hauth
      (executeTool_confirm_not_found backend now rand d uri m auth auditId st hsc hnf)
  · intro env verify backend now rand auditId tn raw args hdr msg st hauth
    exact handleCallTool_authfail env verify backend now rand auditId tn raw args
      hdr msg st hauth
  · intro env verify backend now rand auditId st hdr raw auth sid atype params
      hauth hsc
    exact handleCallTool_throw env verify backend now rand auditId
      "toorpia_run_analysis" raw (.run sid atype params) hdr auth
      "Insufficient permissions: mcp:analyze scope required" st st hauth
      (executeTool_run_scope_denied backend now rand sid atype params auth auditId st hsc)

theorem C2_amended_witness :
    (handleCallTool prodEnv verifyB okBackend 1 2 "audit_w2a"
      ⟨"toorpia_run_analysis", Json.null, .run sid1 none none, some "Bearer tokB"⟩ store1 =
      { outcome := .success (.errorResp (errorNext "ACCESS_DENIED"
          "このセッションにアクセスする権限がありません。" [] "audit_w2a")),
        records := [writeAuditLog authB "toorpia_run_analysis" Json.null true "audit_w2a"
          none none none none],
        store := store1 } ∧
      (errorNext "ACCESS_DENIED" "このセッションにアクセスする権限がありません。"
        [] "audit_w2a").audit_id = "audit_w2a") ∧
    (handleCallTool prodEnv verifyA okBackend 1 2 "audit_w2b"
      ⟨"toorpia_confirm_preprocessed", Json.null, .confirm "dx" "file://x" manifest1,
        some "Bearer tokA"⟩ GuardStore.empty =
      { outcome := .success (.errorResp (errorNext "SESSION_NOT_FOUND"
          "データセットのセッションが見つかりません。先に suggest_preprocess を実行してください。"
          [{ tool := "toorpia_suggest_preprocess", args := .suggest "dx" }] "audit_w2b")),
        records := [writeAuditLog authA "toorpia_confirm_preprocessed" Json.null true
          "audit_w2b" none none none none],
        store := GuardStore.empty }) ∧
    (handleCallTool prodEnv failVerify okBackend 1 2 "audit_w2c"
      ⟨"toorpia_get_status", Json.null, .status "an1", some "Bearer junk"⟩ GuardStore.empty =
      { outcome := .mcpError ("Error executing tool " ++ "toorpia_get_status" ++ ": " ++
          "Authentication failed: JWT verification failed: invalid signature"),
        records := [writeAuditLog devContext "toorpia_get_status" Json.null false
          "audit_w2c" none none none
          (some "Authentication failed: JWT verification failed: invalid signature")],
        store := GuardStore.empty }) ∧
    (handleCallTool prodEnv verifyC okBackend 1 2 "audit_w2d"
      ⟨"toorpia_run_analysis", Json.null, .run sid1 none none, some "Bearer tokC"⟩ store1 =
      { outcome := .mcpError ("Error executing tool " ++ "toorpia_run_analysis" ++
          ": " ++ "Insufficient permissions: mcp:analyze scope required"),
        records := [writeAuditLog devContext "toorpia_run_analysis" Json.null false
          "audit_w2d" none none none
          (some "Insufficient permissions: mcp:analyze scope required")],
        store := store1 }) :=
  ⟨C2_amended.1 prodEnv verifyB okBackend 1 2 "audit_w2a" store1 (some "Bearer tokB")
      Json.null authB sid1 none none
      (errorNext "ACCESS_DENIED" "このセッションにアクセスする権限がありません。" [] "audit_w2a")
      (by decide) (by decide) (by decide),
   C2_amended.2.1 prodEnv verifyA okBackend 1 2 "audit_w2b" GuardStore.empty
      (some "Bearer tokA") Json.null authA "dx" "file://x" manifest1
      (by decide) (by decide) (by decide),
   C2_amended.2.2.1 prodEnv failVerify okBackend 1 2 "audit_w2c" "toorpia_get_status"
      Json.null (.status "an1") (some "Bearer junk")
      "Authentication failed: JWT verification failed: invalid signature"
      GuardStore.empty (by decide),
   C2_amended.2.2.2 prodEnv verifyC okBackend 1 2 "audit_w2d" store1
      (some "Bearer tokC") Json.null authC sid1 none none (by decide) (by decide)⟩

/-! ## Digest-shape lemmas -/

theorem sha256Round_length (st : List Nat) (kw : Nat × Nat) :
    (sha256Round st kw).length = st.length := by
  unfold sha256Round
  split
  · simp
  · rfl

theorem foldl_round_length (l : List (Nat × Nat)) (st : List Nat) :
    (l.foldl sha256Round st).length = st.length := by
  induction l generalizing st with
  | nil => rfl
  | cons kw t ih =>
    simp only [List.foldl_cons]
    rw [ih, sha256Round_length]

theorem sha256Block_length (hs block : List Nat) (h : hs.length = 8) :
    (sha256Block hs block).length = 8 := by
  unfold sha256Block
  simp [List.length_zip, foldl_round_length, h]

theorem foldl_block_length (blocks : List (List Nat)) (hs : List Nat)
    (h : hs.length = 8) : (blocks.foldl sha256Block hs).length = 8 := by
  induction blocks generalizing hs with
  | nil => exact h
  | cons b t ih => exact ih _ (sha256Block_length _ _ h)

theorem digest_foldr_length (hs : List Nat) :
    (hs.foldr (fun h acc =>
      [h / 16777216 % 256, h / 65536 % 256, h / 256 % 256, h % 256] ++ acc)
      []).length = 4 * hs.length := by
  induction hs with
  | nil => rfl
  | cons x t ih =>
    simp only [List.foldr_cons, List.length_append, ih, List.length_cons,
      List.length_nil]
    omega

theorem sha256_length (msg : List Nat) : (sha256 msg).length = 32 := by
  unfold sha256
  dsimp only
  rw [digest_foldr_length, foldl_block_length _ _ (by rfl)]

theorem digest_foldr_bytes_lt (hs : List Nat) :
    ∀ b ∈ hs.foldr (fun h acc =>
      [h / 16777216 % 256, h / 65536 % 256, h / 256 % 256, h % 256] ++ acc) [],
      b < 256 := by
  induction hs with
  | nil => intro b hb; simp at hb
  | cons x t ih =>
    intro b hb
    simp only [List.foldr_cons, List.mem_append, List.mem_cons,
      List.not_mem_nil, or_false] at hb
    rcases hb with (h | h | h | h) | h
    · exact h ▸ Nat.mod_lt _ (by omega)
    · exact h ▸ Nat.mod_lt _ (by omega)
    · exact h ▸ Nat.mod_lt _ (by omega)
    · exact h ▸ Nat.mod_lt _ (by omega)
    · exact ih b h

theorem sha256_bytes_lt (msg : List Nat) : ∀ b ∈ sha256 msg, b < 256 := by
  unfold sha256
  dsimp only
  exact digest_foldr_bytes_lt _

theorem stringAppend_length (s1 s2 : String) :
    (s1 ++ s2).length = s1.length + s2.length := by
  cases s1 with
  | mk a =>
    cases s2 with
    | mk b => exact List.length_append a b

theorem stringAppend_data (s1 s2 : String) :
    (s1 ++ s2).data = s1.data ++ s2.data := by
  cases s1 with
  | mk a =>
    cases s2 with
    | mk b => rfl

theorem bytesToHex_length (bs : List Nat) : (bytesToHex bs).length = 2 * bs.length := by
  induction bs with
  | nil => rfl
  | cons b t ih =>
    show (byteToHex b ++ bytesToHex t).length = _
    rw [stringAppend_length, ih]
    simp [byteToHex, String.length]
    omega

theorem hexDigit_mem {n : Nat} (h : n < 16) :
    hexDigit n ∈ ("0123456789abcdef" : String).data := by
  interval_cases n <;> decide

theorem mem_bytesToHex_data {c : Char} {bs : List Nat}
    (hb : ∀ b ∈ bs, b < 256) (hc : c ∈ (bytesToHex bs).data) :
    c ∈ ("0123456789abcdef" : String).data := by
  induction bs with
  | nil => simp [bytesToHex] at hc
  | cons b t ih =>
    have hblt : b < 256 := hb b (List.mem_cons_self _ _)
    rw [show bytesToHex (b :: t) = byteToHex b ++ bytesToHex t from rfl,
      stringAppend_data] at hc
    rcases List.mem_append.mp hc with h | h
    · have hdata : (byteToHex b).data = [hexDigit (b / 16), hexDigit (b % 16)] := rfl
      rw [hdata] at h
      simp only [List.mem_cons, List.not_mem_nil, or_false] at h
      rcases h with h | h
      · exact h ▸ hexDigit_mem (Nat.div_lt_of_lt_mul (by omega))
      · exact h ▸ hexDigit_mem (Nat.mod_lt _ (by omega))
    · exact ih (fun x hx => hb x (List.mem_cons_of_mem _ hx)) h

theorem sha256hex_length (s : String) : (sha256hex s).length = 64 := by
  unfold sha256hex
  rw [bytesToHex_length, sha256_length]

theorem strTake_length (s : String) (n : Nat) :
    (strTake s n).length = min n s.length := by
  cases s with
  | mk data =>
    show (data.take n).length = min n data.length
    exact List.length_take n data

/-- Claim C10 counterexample: the payload `7` serializes to `"7"`, its
`input_hash` is `7902699be42c8a8e` — the first 16 hex characters of
SHA-256("7") — and that stored value contains the raw serialization `"7"` as
a substring, so "the stored value never contains the raw payload itself" is
false as stated. -/
theorem C10_counterexample :
    stringify (Json.num 7) = "7" ∧
    hashInput (Json.num 7) = "7902699be42c8a8e" ∧
    containsSubstr (hashInput (Json.num 7)) (stringify (Json.num 7)) = true := by
  decide

/-- Claim C10 as amended: `input_hash` is exactly the first 16 characters of
the lowercase hex SHA-256 digest of the payload's JSON serialization — a
deterministic truncation of fixed length 16 over the hex alphabet, so equal
serializations always hash equal, and the stored value never *equals* the
raw serialization when that serialization is longer than 16 characters
(though it may contain a short serialization as a substring, as the
counterexample shows). -/
theorem C10_amended (j : Json) :
    hashInput j = strTake (sha256hex (stringify j)) 16 ∧
    (hashInput j).length = 16 ∧
    (∀ c ∈ (hashInput j).data, c ∈ ("0123456789abcdef" : String).data) ∧
    (∀ j' : Json, stringify j = stringify j' → hashInput j = hashInput j') ∧
    (16 < (stringify j).length → hashInput j ≠ stringify j) := by
  have hlen : (hashInput j).length = 16 := by
    unfold hashInput
    rw [strTake_length, sha256hex_length]
    omega
  refine ⟨rfl, hlen, ?_, ?_, ?_⟩
  · intro c hc
    have hc' : c ∈ (sha256hex (stringify j)).data := List.mem_of_mem_take hc
    unfold sha256hex at hc'
    exact mem_bytesToHex_data (sha256_bytes_lt _) hc'
  · intro j' h
    unfold hashInput
    rw [h]
  · intro hgt heq
    rw [heq] at hlen
    omega

theorem C10_amended_witness :
    (hashInput (Json.str "dataset") = strTake (sha256hex (stringify (Json.str "dataset"))) 16 ∧
      (hashInput (Json.str "dataset")).length = 16 ∧
      (∀ c ∈ (hashInput (Json.str "dataset")).data,
        c ∈ ("0123456789abcdef" : String).data) ∧
      (∀ j' : Json, stringify (Json.str "dataset") = stringify j' →
        hashInput (Json.str "dataset") = hashInput j') ∧
      (16 < (stringify (Json.str "dataset")).length →
        hashInput (Json.str "dataset") ≠ stringify (Json.str "dataset"))) ∧
    hashInput (Json.str "dataset") = hashInput (Json.str "dataset") ∧
    16 < (stringify (Json.obj [("dataset_id", Json.str "d1")])).length ∧
    hashInput (Json.obj [("dataset_id", Json.str "d1")]) ≠
      stringify (Json.obj [("dataset_id", Json.str "d1")]) :=
  ⟨C10_amended (Json.str "dataset"),
   (C10_amended (Json.str "dataset")).2.2.2.1 (Json.str "dataset") rfl,
   by decide,
   (C10_amended (Json.obj [("dataset_id", Json.str "d1")])).2.2.2.2 (by decide)⟩

end Toorpia
